import Mathlib

/-!
Shallow embedding of the FraudShield ingestion-to-alert pipeline.

The rule-based scorer is `ml/src/fraudDetectionModel.js`, the normalizer is
the `DataPreprocessor` class, and the alert construction is
`DatabaseService.saveTransactions`.  JavaScript numbers are modelled as exact
rationals (the injected `Math.random() * 0.3` term is an explicit parameter),
machine-float display rounding (`toFixed(4)`) is treated as formatting and not
modelled, and `Date` parsing/formatting is an abstract injected function.
-/

namespace FraudShield

/-! ## Rule-based scorer (fraudDetectionModel.js) -/

/-- Input row of `ruleBasedPrediction`.  `tsHour` models the hour extracted by
`new Date(row.Timestamp || Date.now()).getHours()` at line 94 (always in
0..23); the timestamp string itself is irrelevant to scoring beyond this. -/
structure MLRow where
  Transaction_ID : String
  Amount : ℚ
  Category : String
  Payment_Method : String
  Is_Night_Transaction : Bool
  Hour_of_Day : Nat
  Is_Foreign : Bool
  tsHour : Nat
deriving DecidableEq

/-- `getRiskLevel` (fraudDetectionModel.js lines 123-127). -/
def getRiskLevel (p : ℚ) : String :=
  if 0.5 ≤ p then "HIGH" else if 0.3 ≤ p then "MEDIUM" else "LOW"

/-- Amount-tier rules, lines 49-58 (mutually exclusive if/else chain). -/
def amountRule (a : ℚ) : ℚ × List String :=
  if 1000 < a then (0.6, ["High transaction amount (>$1000)"])
  else if 500 < a then (0.4, ["Medium transaction amount (>$500)"])
  else if 100 < a then (0.2, ["Above average amount (>$100)"])
  else (0, [])

/-- Night-time rule, line 61. -/
def nightRule (row : MLRow) : ℚ × List String :=
  if row.Is_Night_Transaction ∨ (22 ≤ row.Hour_of_Day ∨ row.Hour_of_Day ≤ 6) then
    (0.3, ["Night time transaction (high risk)"])
  else (0, [])

/-- Category rules, lines 67-76. -/
def categoryRule (c : String) : ℚ × List String :=
  if c = "ATM" then (0.4, ["ATM transaction (very high risk)"])
  else if c = "Online" ∨ c = "E-commerce" then
    (0.3, ["Online/E-commerce transaction (high risk)"])
  else if c = "Gas" ∨ c = "Food" then (0.1, ["Common fraud category"])
  else (0, [])

/-- Foreign-location rule, line 79. -/
def foreignRule (b : Bool) : ℚ × List String :=
  if b then (0.4, ["Foreign transaction (very high risk)"]) else (0, [])

/-- Payment-method rules, lines 85-91. -/
def paymentRule (m : String) : ℚ × List String :=
  if m = "digital_wallet" then (0.2, ["Digital wallet payment (higher risk)"])
  else if m = "credit_card" then (0.15, ["Credit card transaction"])
  else (0, [])

/-- Very-early-morning rule, lines 94-98; `getHours` is a natural number, so
the source's `hour >= 0` conjunct is always true. -/
def earlyMorningRule (h : Nat) : ℚ × List String :=
  if h ≤ 7 then (0.25, ["Very early morning transaction"]) else (0, [])

/-- Round-number rule, lines 101-104: `row.Amount && row.Amount % 100 === 0`.
A finite JS number satisfies `x % 100 === 0` exactly when it is an integer
multiple of 100, i.e. when `x / 100` has denominator 1. -/
def roundRule (a : ℚ) : ℚ × List String :=
  if a ≠ 0 ∧ (a / 100).den = 1 then
    (0.1, ["Round number amount (suspicious pattern)"])
  else (0, [])

/-- The sequential `fraudScore += ...` / `reasons.push(...)` accumulation of
`ruleBasedPrediction` (lines 40-104), rendered as the ordered sum of the rule
contributions starting from the base score 0.2; the reason list concatenates
in the same evaluation order. -/
def baseScoreReasons (row : MLRow) : ℚ × List String :=
  let r1 := amountRule row.Amount
  let r2 := nightRule row
  let r3 := categoryRule row.Category
  let r4 := foreignRule row.Is_Foreign
  let r5 := paymentRule row.Payment_Method
  let r6 := earlyMorningRule row.tsHour
  let r7 := roundRule row.Amount
  (0.2 + r1.1 + r2.1 + r3.1 + r4.1 + r5.1 + r6.1 + r7.1,
   r1.2 ++ r2.2 ++ r3.2 ++ r4.2 ++ r5.2 ++ r6.2 ++ r7.2)

/-- Pre-randomness fraud score of a row. -/
def baseScore (row : MLRow) : ℚ := (baseScoreReasons row).1

/-- Triggered-rule reason strings, in evaluation order. -/
def mlReasons (row : MLRow) : List String := (baseScoreReasons row).2

/-- Final probability, lines 107-109: base score plus the injected randomness
term (`Math.random() * 0.3`), clamped by `Math.max(0.1, Math.min(1, _))`. -/
def fraudProb (row : MLRow) (rand : ℚ) : ℚ :=
  max 0.1 (min 1 (baseScore row + rand))

/-- Output record of `ruleBasedPrediction` (lines 113-119).  `ml_pred_prob` is
the exact clamped probability; the 4-decimal display rounding applied by
`parseFloat(fraudProb.toFixed(4))` is formatting and is not modelled. -/
structure Pred where
  Transaction_ID : String
  ml_pred_prob : ℚ
  fraud_flag : Bool
  risk_level : String
  reason : String
deriving DecidableEq

/-- One iteration of the `data.map(row => ...)` body of `ruleBasedPrediction`.
`seed` models the `Date.now()`/`Math.random()` suffix used to backfill a
falsy `Transaction_ID` (lines 44-46); `rand` is the injected randomness. -/
def scoreRow (seed : String) (row : MLRow) (rand : ℚ) : Pred :=
  let tid := if row.Transaction_ID = "" then "TXN-" ++ seed else row.Transaction_ID
  let p := fraudProb row rand
  { Transaction_ID := tid
    ml_pred_prob := p
    fraud_flag := decide (0.3 < p)
    risk_level := getRiskLevel p
    reason :=
      if 0 < (mlReasons row).length then String.intercalate ", " (mlReasons row)
      else "Baseline fraud risk detected" }

/-- The concrete record of the spec's deterministic-component test: amount
1500, category ATM, foreign, credit card, flagged as a night transaction; the
timestamp hour is 12 so the very-early-morning rule does not fire. -/
def rowC1 : MLRow :=
  { Transaction_ID := "T1", Amount := 1500, Category := "ATM",
    Payment_Method := "credit_card", Is_Night_Transaction := true,
    Hour_of_Day := 23, Is_Foreign := true, tsHour := 12 }

/-! ## Normalizer (DataPreprocessor) -/

/-- A loosely-typed JavaScript field value as it occurs in a raw row: absent
(`undefined`), a string (what `csv-parser` produces), or a number (what a
re-fed, already-normalized record carries in its amount field). -/
inductive JSValue where
  | undef : JSValue
  | str : String → JSValue
  | num : ℚ → JSValue
deriving DecidableEq

/-- JavaScript truthiness of a modelled value. -/
def JSValue.truthy : JSValue → Bool
  | .undef => false
  | .str s => s ≠ ""
  | .num q => q ≠ 0

/-- JavaScript `a || b` on loosely-typed values. -/
def jsOr (a b : JSValue) : JSValue := if a.truthy then a else b

/-- Truthiness of an absent-or-string field. -/
def truthyS : Option String → Bool
  | some s => s ≠ ""
  | none => false

/-- JavaScript `a || b` on absent-or-string fields. -/
def sOr (a b : Option String) : Option String := if truthyS a then a else b

/-- A raw input row: every field-name alias consulted by the
`DataPreprocessor.normalize*` functions.  All aliases default to absent. -/
structure RawRow where
  Transaction_ID : Option String := none
  TransactionID : Option String := none
  transaction_id : Option String := none
  id : Option String := none
  Amount : JSValue := .undef
  amount : JSValue := .undef
  AMOUNT : JSValue := .undef
  Merchant : Option String := none
  merchant : Option String := none
  MERCHANT : Option String := none
  merchant_name : Option String := none
  Category : Option String := none
  category : Option String := none
  CATEGORY : Option String := none
  merchant_category : Option String := none
  User_ID : Option String := none
  UserID : Option String := none
  user_id : Option String := none
  customer_id : Option String := none
  Timestamp : Option String := none
  timestamp : Option String := none
  date : Option String := none
  Date : Option String := none
  transaction_date : Option String := none
  Location : Option String := none
  location : Option String := none
  LOCATION : Option String := none
  city : Option String := none
  Payment_Method : Option String := none
  payment_method : Option String := none
  PaymentMethod : Option String := none
  card_type : Option String := none
deriving DecidableEq

/-- An ASCII whitespace character (the fragment of JS whitespace we model). -/
def isWs (c : Char) : Bool := c = ' ' ∨ c = '\t' ∨ c = '\n' ∨ c = '\r'

/-- JavaScript `String.prototype.trim` over the modelled character set. -/
def jsTrim (s : String) : String :=
  String.mk (((s.toList.dropWhile isWs).reverse.dropWhile isWs).reverse)

/-- `DataPreprocessor.isEmpty` (lines 227-236). -/
def isEmptyVal : JSValue → Bool
  | .undef => true
  | .str s =>
      s = "" ∨ jsTrim s = "" ∨ s = "null" ∨ s = "NULL" ∨ s = "N/A" ∨ s = "n/a"
  | .num _ => false

/-- The resolved transaction-id alias chain (line 75 / line 109). -/
def tidAlias (row : RawRow) : Option String :=
  sOr (sOr (sOr row.Transaction_ID row.TransactionID) row.transaction_id) row.id

/-- `normalizeTransactionId` (lines 107-115).  `seed` models the
`Date.now()` + `Math.random()` suffix of a generated id.  Note that the
`id !== 'null'` / `id !== 'undefined'` guards compare the *untrimmed* id. -/
def normalizeTransactionId (seed : String) (row : RawRow) : String :=
  match tidAlias row with
  | some s =>
      if s ≠ "" ∧ jsTrim s ≠ "" ∧ s ≠ "null" ∧ s ≠ "undefined" then jsTrim s
      else "TXN-" ++ seed
  | none => "TXN-" ++ seed

/-- `String(amount).replace(/[,$]/g, '')`: strip commas and dollar signs. -/
def stripCurrency (s : String) : String :=
  String.mk (s.toList.filter (fun c => c ≠ ',' ∧ c ≠ '$'))

/-- Decimal value of a digit list (most significant first). -/
def digitsToNat (ds : List Char) : ℕ :=
  ds.foldl (fun n c => 10 * n + (c.toNat - '0'.toNat)) 0

/-- Exponent part of a JS float literal: optional sign then digits; an `e`
with no following digits contributes exponent 0 (as `parseFloat` ignores a
dangling exponent marker). -/
def parseExp (t : List Char) : ℤ :=
  let sgn : ℤ := match t with | '-' :: _ => -1 | _ => 1
  let t1 : List Char := match t with | '-' :: u => u | '+' :: u => u | _ => t
  let ds := t1.takeWhile Char.isDigit
  if ds.isEmpty then 0 else sgn * (digitsToNat ds : ℤ)

/-- JavaScript `parseFloat` on decimal literals: skip leading whitespace,
optional sign, integer digits, optional fraction, optional exponent, ignoring
any trailing garbage; `none` models `NaN` (no digit parsed).  The `Infinity`
literal and binary-double precision loss lie outside the modelled fragment;
values are exact rationals. -/
def parseFloatQ (s : String) : Option ℚ :=
  let cs := s.toList.dropWhile (fun c => c = ' ' ∨ c = '\t' ∨ c = '\n' ∨ c = '\r')
  let sgn : ℚ := match cs with | '-' :: _ => -1 | _ => 1
  let cs1 : List Char := match cs with | '-' :: t => t | '+' :: t => t | _ => cs
  let intPart := cs1.takeWhile Char.isDigit
  let cs2 := cs1.dropWhile Char.isDigit
  let fracPart : List Char :=
    match cs2 with | '.' :: t => t.takeWhile Char.isDigit | _ => []
  let cs3 : List Char :=
    match cs2 with | '.' :: t => t.dropWhile Char.isDigit | _ => cs2
  if intPart.isEmpty ∧ fracPart.isEmpty then none
  else
    let mant : ℚ :=
      (digitsToNat intPart : ℚ) + (digitsToNat fracPart : ℚ) / (10 : ℚ) ^ fracPart.length
    let e : ℤ :=
      match cs3 with
      | 'e' :: t => parseExp t
      | 'E' :: t => parseExp t
      | _ => 0
    some (sgn * mant * (10 : ℚ) ^ e)

/-- The resolved amount alias chain (line 118). -/
def amountAlias (row : RawRow) : JSValue := jsOr (jsOr row.Amount row.amount) row.AMOUNT

/-- `normalizeAmount` (lines 117-123): `none` models the `null` result.  For a
number-valued field, `parseFloat(String(x))` is the identity on finite JS
numbers (a numeral contains no `,` or `$`), so the value is used directly. -/
def normalizeAmount (row : RawRow) : Option ℚ :=
  if isEmptyVal (amountAlias row) then none
  else
    match amountAlias row with
    | .undef => none
    | .str s =>
        match parseFloatQ (stripCurrency s) with
        | none => none
        | some q => if q ≤ 0 then none else some q
    | .num q => if q ≤ 0 then none else some q

/-- `normalizeMerchant` (lines 125-127). -/
def normalizeMerchant (row : RawRow) : String :=
  (sOr (sOr (sOr (sOr row.Merchant row.merchant) row.MERCHANT) row.merchant_name)
      (some "Unknown Merchant")).getD ""

/-- The fixed category enumeration (line 131). -/
def validCategories : List String :=
  ["E-commerce", "Retail", "Gas", "Food", "ATM", "Online", "Other"]

/-- ASCII `toLowerCase`. -/
def jsToLower (s : String) : String := String.mk (s.toList.map Char.toLower)

/-- The resolved category alias chain (line 130). -/
def catAlias (row : RawRow) : Option String :=
  sOr (sOr (sOr row.Category row.category) row.CATEGORY) row.merchant_category

/-- `normalizeCategory` (lines 129-141): case-insensitive match against the
enumeration, anything else (including a falsy alias) folds to "Other". -/
def normalizeCategory (row : RawRow) : String :=
  if ¬ truthyS (catAlias row) then "Other"
  else
    match catAlias row with
    | some s =>
        match validCategories.find? (fun cat => jsToLower cat = jsToLower s) with
        | some c => c
        | none => "Other"
    | none => "Other"

/-- `normalizeUserId` (lines 143-145); `useed` models the random numeric
suffix of a generated user id. -/
def normalizeUserId (useed : String) (row : RawRow) : String :=
  (sOr (sOr (sOr (sOr row.User_ID row.UserID) row.user_id) row.customer_id)
      (some ("USER-" ++ useed))).getD ""

/-- The resolved timestamp alias chain (line 148). -/
def tsAlias (row : RawRow) : Option String :=
  sOr (sOr (sOr (sOr row.Timestamp row.timestamp) row.date) row.Date) row.transaction_date

/-- `normalizeTimestamp` (lines 147-160).  `toIso` abstracts
`s ↦ new Date(s).toISOString()` (`none` = invalid date), `now` abstracts
`new Date().toISOString()`. -/
def normalizeTimestamp (toIso : String → Option String) (now : String) (row : RawRow) : String :=
  match tsAlias row with
  | some s => if s = "" then now else (toIso s).getD now
  | none => now

/-- `normalizeLocation` (lines 162-164). -/
def normalizeLocation (row : RawRow) : String :=
  (sOr (sOr (sOr (sOr row.Location row.location) row.LOCATION) row.city)
      (some "Unknown")).getD ""

/-- The fixed payment-method enumeration (line 168). -/
def validMethods : List String :=
  ["credit_card", "debit_card", "bank_transfer", "digital_wallet", "other"]

/-- `method.toLowerCase().replace(/[^a-z]/g, '_')` (line 172). -/
def jsSanitize (s : String) : String :=
  String.mk ((jsToLower s).toList.map (fun c => if 'a' ≤ c ∧ c ≤ 'z' then c else '_'))

/-- The resolved payment-method alias chain (line 167). -/
def pmAlias (row : RawRow) : Option String :=
  sOr (sOr (sOr row.Payment_Method row.payment_method) row.PaymentMethod) row.card_type

/-- `normalizePaymentMethod` (lines 166-174): a falsy alias yields
"credit_card"; otherwise the sanitized value if it is in the enumeration,
else "other". -/
def normalizePaymentMethod (row : RawRow) : String :=
  if ¬ truthyS (pmAlias row) then "credit_card"
  else
    match pmAlias row with
    | some s => if validMethods.contains (jsSanitize s) then jsSanitize s else "other"
    | none => "credit_card"

/-- The canonical record shape produced by `cleanRow` (lines 84-93). -/
structure NormalizedRecord where
  Transaction_ID : String
  Amount : ℚ
  Merchant : String
  Category : String
  User_ID : String
  Timestamp : String
  Location : String
  Payment_Method : String
deriving DecidableEq

/-- `cleanRow` (lines 81-105): build the normalized record, then return `null`
when the cleaned `Transaction_ID` or `Amount` is falsy (the amount check is
exactly `normalizeAmount row = none`, since a successful amount is positive;
the body is pure, so the `try`/`catch` never fires). -/
def cleanRow (toIso : String → Option String) (now seed useed : String)
    (row : RawRow) : Option NormalizedRecord :=
  match normalizeAmount row with
  | none => none
  | some q =>
      if normalizeTransactionId seed row = "" then none
      else
        some { Transaction_ID := normalizeTransactionId seed row, Amount := q,
               Merchant := normalizeMerchant row,
               Category := normalizeCategory row, User_ID := normalizeUserId useed row,
               Timestamp := normalizeTimestamp toIso now row,
               Location := normalizeLocation row,
               Payment_Method := normalizePaymentMethod row }

/-- `isValidRow` (lines 73-79).  Note the amount alias chain here omits
`AMOUNT`, unlike `normalizeAmount`. -/
def isValidRow (row : RawRow) : Bool :=
  truthyS (tidAlias row) ∧ (jsOr row.Amount row.amount).truthy ∧
    ¬ isEmptyVal (jsOr row.Amount row.amount)

/-- `cleanData` (lines 66-71): filter valid rows, clean each (with a fresh
id/user seed per position, indexed by `seedOf`/`useedOf`), drop `null`s. -/
def cleanData (toIso : String → Option String) (now : String)
    (seedOf useedOf : ℕ → String) (rows : List RawRow) : List NormalizedRecord :=
  (((rows.filter isValidRow).enum).map
      (fun p => cleanRow toIso now (seedOf p.1) (useedOf p.1) p.2)).filterMap id

/-! ## Alert construction (DatabaseService.saveTransactions) -/

/-- One alert document as built at saveTransactions lines 126-135: the map
produces `Transaction_ID`, `risk_level`, `reason` and wall-clock
`created_at`/`updated_at` (the two timestamps are omitted here); no `status`
field is assigned, which we model as `status := none`. -/
structure AlertDoc where
  Transaction_ID : String
  risk_level : String
  reason : String
  status : Option String
deriving DecidableEq

/-- The map body of lines 128-134: carry over id, risk level and reason; no
`status` key is written. -/
def mkAlertDoc (p : Pred) : AlertDoc :=
  { Transaction_ID := p.Transaction_ID, risk_level := p.risk_level,
    reason := p.reason, status := none }

/-- The `alertDocs` pipeline of `saveTransactions` (lines 126-135): filter the
predictions on `risk_level === 'HIGH' || fraud_flag === 1`, map to alert
documents, then drop documents with a falsy `Transaction_ID`. -/
def alertDocs (preds : List Pred) : List AlertDoc :=
  ((preds.filter (fun p => p.risk_level == "HIGH" || p.fraud_flag)).map mkAlertDoc).filter
    (fun doc => doc.Transaction_ID != "")

/-! ## Concrete instances used in closed theorems -/

/-- A date library model that echoes its input as the ISO rendering. -/
def toIso1 : String → Option String := fun s => some s

/-- The claim's bad-amount predicate: the resolved amount field is
non-numeric, zero, or negative after stripping currency characters. -/
def badAmount (row : RawRow) : Bool :=
  match amountAlias row with
  | .undef => true
  | .str s =>
      match parseFloatQ (stripCurrency s) with
      | none => true
      | some q => q ≤ 0
  | .num q => q ≤ 0

/-- Overwrite every payment-method alias of a row. -/
def setPM (row : RawRow) (v : Option String) : RawRow :=
  { row with Payment_Method := v, payment_method := v, PaymentMethod := v, card_type := v }

/-- Re-feed a normalized record to the preprocessor, as when the output file
is preprocessed again: the amount is a number, all other fields strings. -/
def toRaw (r : NormalizedRecord) : RawRow :=
  { Transaction_ID := some r.Transaction_ID, Amount := .num r.Amount,
    Merchant := some r.Merchant, Category := some r.Category,
    User_ID := some r.User_ID, Timestamp := some r.Timestamp,
    Location := some r.Location, Payment_Method := some r.Payment_Method }

/-- A record in normalized form, per the data-model invariants: trimmed
non-empty id, positive amount, enumerated category and payment method,
non-empty defaulted string fields. -/
def isNormalized (r : NormalizedRecord) : Prop :=
  jsTrim r.Transaction_ID = r.Transaction_ID ∧ r.Transaction_ID ≠ "" ∧ 0 < r.Amount ∧
  r.Merchant ≠ "" ∧ r.Category ∈ validCategories ∧ r.User_ID ≠ "" ∧
  r.Location ≠ "" ∧ r.Payment_Method ∈ validMethods

/-- A raw row whose id trims to the literal string "null" (the untrimmed
value passes every guard of `normalizeTransactionId`). -/
def rawNull : RawRow :=
  { Transaction_ID := some " null ", Amount := .str "5", Merchant := some "M",
    Category := some "Retail", User_ID := some "U", Timestamp := some "T",
    Location := some "L", Payment_Method := some "credit_card" }

/-- The normalizer's output on `rawNull` (with `toIso1` and now = "NOW"). -/
def recNull : NormalizedRecord :=
  { Transaction_ID := "null", Amount := 5, Merchant := "M", Category := "Retail",
    User_ID := "U", Timestamp := "T", Location := "L", Payment_Method := "credit_card" }

/-- A raw row with no fields set. -/
def rawBare : RawRow := {}

/-- A raw row with only a free-text category. -/
def rawCrypto : RawRow := { Category := some "Crypto" }

/-- A raw row with a negative amount. -/
def rawBad : RawRow := { Transaction_ID := some "T2", Amount := .str "-5" }

/-- A minimal valid raw row. -/
def rawT1 : RawRow :=
  { Transaction_ID := some "T1", Amount := .str "50", Category := some "Retail" }

/-- The normalizer's output on `rawT1` (with `toIso1`, now = "NOW", id seed
"G", user seed "U"). -/
def recT1 : NormalizedRecord :=
  { Transaction_ID := "T1", Amount := 50, Merchant := "Unknown Merchant",
    Category := "Retail", User_ID := "USER-U", Timestamp := "NOW",
    Location := "Unknown", Payment_Method := "credit_card" }

/-- A high-risk prediction whose transaction id is the empty string. -/
def predNoId : Pred :=
  { Transaction_ID := "", ml_pred_prob := 1, fraud_flag := true,
    risk_level := "HIGH", reason := "r" }

/-- A high-risk prediction with a usable transaction id. -/
def predOk : Pred :=
  { Transaction_ID := "T1", ml_pred_prob := 1, fraud_flag := true,
    risk_level := "HIGH", reason := "r" }

/-- A raw row whose only payment alias is unmatched free text. -/
def rawPay : RawRow := { card_type := some "CRYPTO!!" }

/-! ## Helper lemmas -/

theorem getRiskLevel_spec (p : ℚ) :
    (getRiskLevel p = "HIGH" ↔ 0.5 ≤ p) ∧
    (getRiskLevel p = "MEDIUM" ↔ 0.3 ≤ p ∧ p < 0.5) ∧
    (getRiskLevel p = "LOW" ↔ p < 0.3) := by
  unfold getRiskLevel
  split_ifs with h1 h2
  · exact ⟨iff_of_true rfl h1,
      iff_of_false (by decide) (fun h => absurd h1 (not_le.mpr h.2)),
      iff_of_false (by decide) (fun h => absurd h1 (not_le.mpr (lt_trans h (by norm_num))))⟩
  · exact ⟨iff_of_false (by decide) h1,
      iff_of_true rfl ⟨h2, not_le.mp h1⟩,
      iff_of_false (by decide) (not_lt.mpr h2)⟩
  · exact ⟨iff_of_false (by decide) h1,
      iff_of_false (by decide) (fun h => h2 h.1),
      iff_of_true rfl (not_le.mp h2)⟩

theorem amountRule_fst_nonneg (a : ℚ) : 0 ≤ (amountRule a).1 := by
  unfold amountRule; split_ifs <;> norm_num

theorem nightRule_fst_nonneg (row : MLRow) : 0 ≤ (nightRule row).1 := by
  unfold nightRule; split_ifs <;> norm_num

theorem categoryRule_fst_nonneg (c : String) : 0 ≤ (categoryRule c).1 := by
  unfold categoryRule; split_ifs <;> norm_num

theorem foreignRule_fst_nonneg (b : Bool) : 0 ≤ (foreignRule b).1 := by
  unfold foreignRule; split_ifs <;> norm_num

theorem paymentRule_fst_nonneg (m : String) : 0 ≤ (paymentRule m).1 := by
  unfold paymentRule; split_ifs <;> norm_num

theorem earlyMorningRule_fst_nonneg (h : Nat) : 0 ≤ (earlyMorningRule h).1 := by
  unfold earlyMorningRule; split_ifs <;> norm_num

theorem roundRule_fst_nonneg (a : ℚ) : 0 ≤ (roundRule a).1 := by
  unfold roundRule; split_ifs <;> norm_num

theorem roundRule_fst_le (a : ℚ) : (roundRule a).1 ≤ 0.1 := by
  unfold roundRule; split_ifs <;> norm_num

/-- The sequential accumulation, written as an explicit sum. -/
theorem baseScore_decomp (row : MLRow) :
    baseScore row =
      0.2 + (amountRule row.Amount).1 + (nightRule row).1 + (categoryRule row.Category).1 +
        (foreignRule row.Is_Foreign).1 + (paymentRule row.Payment_Method).1 +
        (earlyMorningRule row.tsHour).1 + (roundRule row.Amount).1 := rfl

/-- Updating only the amount leaves every other rule contribution unchanged. -/
theorem baseScore_setAmount (row : MLRow) (a : ℚ) :
    baseScore { row with Amount := a } =
      0.2 + (amountRule a).1 + (nightRule row).1 + (categoryRule row.Category).1 +
        (foreignRule row.Is_Foreign).1 + (paymentRule row.Payment_Method).1 +
        (earlyMorningRule row.tsHour).1 + (roundRule a).1 := rfl

theorem baseScore_ge (row : MLRow) : 0.2 ≤ baseScore row := by
  rw [baseScore_decomp]
  linarith [amountRule_fst_nonneg row.Amount, nightRule_fst_nonneg row,
    categoryRule_fst_nonneg row.Category, foreignRule_fst_nonneg row.Is_Foreign,
    paymentRule_fst_nonneg row.Payment_Method, earlyMorningRule_fst_nonneg row.tsHour,
    roundRule_fst_nonneg row.Amount]

/-- Crossing an amount-tier boundary raises the tier contribution by ≥ 0.2. -/
theorem amountRule_gap {a1 a2 : ℚ}
    (hb : (a1 ≤ 100 ∧ 100 < a2) ∨ (a1 ≤ 500 ∧ 500 < a2) ∨ (a1 ≤ 1000 ∧ 1000 < a2)) :
    (amountRule a1).1 + 0.2 ≤ (amountRule a2).1 := by
  unfold amountRule
  rcases hb with ⟨h1, h2⟩ | ⟨h1, h2⟩ | ⟨h1, h2⟩ <;> split_ifs <;> linarith

theorem baseScore_rowC1 : baseScore rowC1 = 2.15 := by
  simp +decide [baseScore, baseScoreReasons, amountRule, nightRule, categoryRule, foreignRule,
    paymentRule, earlyMorningRule, roundRule, rowC1, Rat.den_eq_one_iff]
  norm_num

theorem mlReasons_rowC1 : mlReasons rowC1 =
    ["High transaction amount (>$1000)", "Night time transaction (high risk)",
     "ATM transaction (very high risk)", "Foreign transaction (very high risk)",
     "Credit card transaction", "Round number amount (suspicious pattern)"] := by
  have hden : ((1500 : ℚ) / 100).den = 1 := by norm_num [Rat.den_eq_one_iff]
  simp +decide [mlReasons, baseScoreReasons, amountRule, nightRule, categoryRule, foreignRule,
    paymentRule, earlyMorningRule, roundRule, rowC1, hden]

theorem txnGen_ne_empty (seed : String) : ("TXN-" ++ seed) ≠ "" := by
  intro h
  have h2 := congrArg String.data h
  rw [String.data_append] at h2
  simp at h2

theorem normalizeTransactionId_ne_empty (seed : String) (row : RawRow) :
    normalizeTransactionId seed row ≠ "" := by
  unfold normalizeTransactionId
  cases tidAlias row with
  | none => exact txnGen_ne_empty seed
  | some s =>
    show (if s ≠ "" ∧ jsTrim s ≠ "" ∧ s ≠ "null" ∧ s ≠ "undefined" then jsTrim s
          else "TXN-" ++ seed) ≠ ""
    by_cases h : s ≠ "" ∧ jsTrim s ≠ "" ∧ s ≠ "null" ∧ s ≠ "undefined"
    · rw [if_pos h]; exact h.2.1
    · rw [if_neg h]; exact txnGen_ne_empty seed

theorem normalizeAmount_pos (row : RawRow) (q : ℚ) (h : normalizeAmount row = some q) :
    0 < q := by
  unfold normalizeAmount at h
  split_ifs at h
  cases hA : amountAlias row with
  | undef => simp only [hA] at h; exact Option.noConfusion h
  | str s =>
    simp only [hA] at h
    cases hp : parseFloatQ (stripCurrency s) with
    | none => simp [hp] at h
    | some v =>
      simp only [hp] at h
      split_ifs at h with hle
      have hq : v = q := by simpa using h
      subst hq
      exact lt_of_not_le hle
  | num v =>
    simp only [hA] at h
    split_ifs at h with hle
    have hq : v = q := by simpa using h
    subst hq
    exact lt_of_not_le hle

theorem normalizeCategory_mem (row : RawRow) : normalizeCategory row ∈ validCategories := by
  unfold normalizeCategory
  split_ifs with h
  · split
    next s =>
      split
      next c heq => exact List.mem_of_find?_eq_some heq
      next => decide
    next => decide
  · decide

/-! ## Claim theorems -/

/-- C1 (counterexample): on the spec's deterministic-test record the
pre-randomness base score is not 2.05 and the reason list does not have
exactly 5 entries — the round-number rule also fires for amount 1500. -/
theorem deterministic_test_cex :
    ¬ (baseScore rowC1 = 2.05 ∧ (mlReasons rowC1).length = 5) := by
  intro h
  rw [baseScore_rowC1] at h
  exact absurd h.1 (by norm_num)

/-- C1 (amended): with the randomness term fixed to 0, scoring the record
amount=1500, category=ATM, isForeign, paymentMethod=credit_card,
isNightTransaction (timestamp hour outside 0..7) yields a pre-clamp base
score of 2.05 + 0.1 = 2.15 (the round-number rule fires since 1500 is a
multiple of 100), a final probability clamped to 1, riskLevel HIGH,
fraudFlag true, and exactly 6 reason strings in evaluation order. -/
theorem deterministic_test_actual (seed : String) :
    baseScore rowC1 = 2.15 ∧
    mlReasons rowC1 =
      ["High transaction amount (>$1000)", "Night time transaction (high risk)",
       "ATM transaction (very high risk)", "Foreign transaction (very high risk)",
       "Credit card transaction", "Round number amount (suspicious pattern)"] ∧
    (scoreRow seed rowC1 0).ml_pred_prob = 1 ∧
    (scoreRow seed rowC1 0).risk_level = "HIGH" ∧
    (scoreRow seed rowC1 0).fraud_flag = true := by
  refine ⟨baseScore_rowC1, mlReasons_rowC1, ?_, ?_, ?_⟩ <;>
  · simp [scoreRow, fraudProb, getRiskLevel, baseScore_rowC1]
    norm_num

/-- C4: for every scored record, `fraud_flag` holds iff the stored
probability exceeds 0.3, and the risk level is HIGH iff probability ≥ 0.5,
MEDIUM iff 0.3 ≤ probability < 0.5, LOW iff probability < 0.3. -/
theorem scoreRow_thresholds (seed : String) (row : MLRow) (rand : ℚ) :
    ((scoreRow seed row rand).fraud_flag = true ↔
        0.3 < (scoreRow seed row rand).ml_pred_prob) ∧
    ((scoreRow seed row rand).risk_level = "HIGH" ↔
        0.5 ≤ (scoreRow seed row rand).ml_pred_prob) ∧
    ((scoreRow seed row rand).risk_level = "MEDIUM" ↔
        0.3 ≤ (scoreRow seed row rand).ml_pred_prob ∧
          (scoreRow seed row rand).ml_pred_prob < 0.5) ∧
    ((scoreRow seed row rand).risk_level = "LOW" ↔
        (scoreRow seed row rand).ml_pred_prob < 0.3) := by
  have hml : (scoreRow seed row rand).ml_pred_prob = fraudProb row rand := rfl
  have hrl : (scoreRow seed row rand).risk_level = getRiskLevel (fraudProb row rand) := rfl
  have hff : (scoreRow seed row rand).fraud_flag = decide (0.3 < fraudProb row rand) := rfl
  rw [hml, hrl, hff]
  exact ⟨decide_eq_true_iff, (getRiskLevel_spec _).1, (getRiskLevel_spec _).2.1,
    (getRiskLevel_spec _).2.2⟩

/-- C5: for every row and randomness value in [0, 0.3), the stored
probability is the additive rule score clamped to [0.1, 1]. -/
theorem fraudProb_clamped (seed : String) (row : MLRow) (rand : ℚ)
    (h0 : 0 ≤ rand) (h1 : rand < 0.3) :
    (scoreRow seed row rand).ml_pred_prob = max 0.1 (min 1 (baseScore row + rand)) ∧
    0.1 ≤ (scoreRow seed row rand).ml_pred_prob ∧
    (scoreRow seed row rand).ml_pred_prob ≤ 1 := by
  refine ⟨rfl, le_max_left _ _, ?_⟩
  exact max_le (by norm_num) (min_le_left _ _)

/-- C5 witness. -/
theorem fraudProb_clamped_witness :
    (0 : ℚ) ≤ 0 ∧ (0 : ℚ) < 0.3 ∧
      ((scoreRow "s" rowC1 0).ml_pred_prob = max 0.1 (min 1 (baseScore rowC1 + 0)) ∧
        0.1 ≤ (scoreRow "s" rowC1 0).ml_pred_prob ∧ (scoreRow "s" rowC1 0).ml_pred_prob ≤ 1) :=
  ⟨le_refl 0, by norm_num, fraudProb_clamped "s" rowC1 0 (le_refl 0) (by norm_num)⟩

/-- C9: holding every other feature fixed, increasing the amount across one
of the tier boundaries 100, 500, 1000 never decreases the pre-randomness
base score (the tier jump of ≥ 0.2 dominates the at-most-0.1 round-number
contribution that may be lost). -/
theorem baseScore_monotone_across_tiers (row : MLRow) (a1 a2 : ℚ)
    (hb : (a1 ≤ 100 ∧ 100 < a2) ∨ (a1 ≤ 500 ∧ 500 < a2) ∨ (a1 ≤ 1000 ∧ 1000 < a2)) :
    baseScore { row with Amount := a1 } ≤ baseScore { row with Amount := a2 } := by
  rw [baseScore_setAmount, baseScore_setAmount]
  have hg := amountRule_gap hb
  have hr1 := roundRule_fst_le a1
  have hr2 := roundRule_fst_nonneg a2
  linarith

/-- C9 witness: crossing the 1000 boundary from 900 to 1100. -/
theorem baseScore_monotone_across_tiers_witness :
    baseScore { rowC1 with Amount := 900 } ≤ baseScore { rowC1 with Amount := 1100 } :=
  baseScore_monotone_across_tiers rowC1 900 1100 (Or.inr (Or.inr ⟨by norm_num, by norm_num⟩))

/-- C10: for every row and non-negative randomness, the stored probability is
at least 0.2 (the base starts at 0.2 and every rule contribution is
non-negative), so the 0.1 lower clamp never binds and no probability lies in
[0.1, 0.2). -/
theorem fraudProb_lower_bound (seed : String) (row : MLRow) (rand : ℚ) (h : 0 ≤ rand) :
    0.2 ≤ (scoreRow seed row rand).ml_pred_prob ∧
    ¬ (0.1 ≤ (scoreRow seed row rand).ml_pred_prob ∧
        (scoreRow seed row rand).ml_pred_prob < 0.2) := by
  have hb := baseScore_ge row
  have hml : (scoreRow seed row rand).ml_pred_prob = fraudProb row rand := rfl
  rw [hml]
  have h2 : (0.2 : ℚ) ≤ min 1 (baseScore row + rand) :=
    le_min (by norm_num) (by linarith)
  have h3 : (0.2 : ℚ) ≤ fraudProb row rand := le_trans h2 (le_max_right _ _)
  exact ⟨h3, fun hc => absurd h3 (not_le.mpr hc.2)⟩

/-- C10 witness. -/
theorem fraudProb_lower_bound_witness :
    (0 : ℚ) ≤ 0 ∧ 0.2 ≤ (scoreRow "s" rowC1 0).ml_pred_prob :=
  ⟨le_refl 0, (fraudProb_lower_bound "s" rowC1 0 (le_refl 0)).1⟩

theorem badAmount_normalizeAmount_none (row : RawRow) (hbad : badAmount row = true) :
    normalizeAmount row = none := by
  unfold badAmount at hbad
  unfold normalizeAmount
  by_cases he : isEmptyVal (amountAlias row) = true
  · rw [if_pos he]
  · rw [if_neg he]
    cases hA : amountAlias row with
    | undef => rfl
    | str s =>
      simp only [hA] at hbad ⊢
      cases hp : parseFloatQ (stripCurrency s) with
      | none => simp [hp]
      | some v =>
        simp only [hp] at hbad ⊢
        rw [if_pos (of_decide_eq_true hbad)]
    | num v =>
      simp only [hA] at hbad ⊢
      rw [if_pos (of_decide_eq_true hbad)]

/-- C6: rows whose amount is non-numeric, zero, or negative after stripping
currency characters are cleaned to `null` (hence absent from the output),
and the output row count never exceeds the input row count. -/
theorem cleanData_rejects_bad_amounts (toIso : String → Option String) (now : String)
    (seedOf useedOf : ℕ → String) (rows : List RawRow) :
    (cleanData toIso now seedOf useedOf rows).length ≤ rows.length ∧
    ∀ row, badAmount row = true →
      ∀ seed useed, cleanRow toIso now seed useed row = none := by
  constructor
  · calc (cleanData toIso now seedOf useedOf rows).length
        ≤ (((rows.filter isValidRow).enum).map
            (fun p => cleanRow toIso now (seedOf p.1) (useedOf p.1) p.2)).length :=
          List.length_filterMap_le id _
      _ = (rows.filter isValidRow).length := by rw [List.length_map, List.enum_length]
      _ ≤ rows.length := List.length_filter_le _ _
  · intro row hbad seed useed
    simp [cleanRow, badAmount_normalizeAmount_none row hbad]

/-- C6 witness: a row with amount "-5" is rejected. -/
theorem cleanData_rejects_bad_amounts_witness :
    badAmount rawBad = true ∧ cleanRow toIso1 "NOW" "s" "u" rawBad = none :=
  ⟨by simp +decide [badAmount, rawBad, amountAlias, jsOr, JSValue.truthy, stripCurrency,
      parseFloatQ, digitsToNat, isWs],
   (cleanData_rejects_bad_amounts toIso1 "NOW" (fun _ => "s") (fun _ => "u") []).2 rawBad
      (by simp +decide [badAmount, rawBad, amountAlias, jsOr, JSValue.truthy, stripCurrency,
        parseFloatQ, digitsToNat, isWs]) "s" "u"⟩

theorem cleanRow_some_inv (toIso : String → Option String) (now seed useed : String)
    (row : RawRow) (rec : NormalizedRecord)
    (h : cleanRow toIso now seed useed row = some rec) :
    rec.Transaction_ID = normalizeTransactionId seed row ∧
    normalizeAmount row = some rec.Amount ∧
    rec.Category = normalizeCategory row := by
  unfold cleanRow at h
  cases hA : normalizeAmount row with
  | none => rw [hA] at h; exact Option.noConfusion h
  | some q =>
    simp only [hA] at h
    split_ifs at h
    injection h with h2
    subst h2
    exact ⟨rfl, rfl, rfl⟩

/-- C7: every record produced by the normalizer has a non-empty transaction
id, a strictly positive amount and a category from the fixed enumeration;
the free-text category "Crypto" folds to "Other". -/
theorem cleanData_output_invariants :
    (∀ (toIso : String → Option String) (now : String) (seedOf useedOf : ℕ → String)
        (rows : List RawRow) (rec : NormalizedRecord),
        rec ∈ cleanData toIso now seedOf useedOf rows →
          rec.Transaction_ID ≠ "" ∧ 0 < rec.Amount ∧ rec.Category ∈ validCategories) ∧
    normalizeCategory rawCrypto = "Other" := by
  constructor
  · intro toIso now seedOf useedOf rows rec hmem
    simp only [cleanData, List.mem_filterMap, id, List.mem_map] at hmem
    obtain ⟨o, ⟨pr, hpr, hfo⟩, hid⟩ := hmem
    subst hid
    obtain ⟨h1, h2, h3⟩ := cleanRow_some_inv _ _ _ _ _ _ hfo
    refine ⟨?_, normalizeAmount_pos _ _ h2, h3 ▸ normalizeCategory_mem pr.2⟩
    rw [h1]
    exact normalizeTransactionId_ne_empty _ _
  · decide

/-- C7 witness. -/
theorem cleanData_output_invariants_witness :
    recT1.Transaction_ID ≠ "" ∧ 0 < recT1.Amount ∧ recT1.Category ∈ validCategories :=
  cleanData_output_invariants.1 toIso1 "NOW" (fun _ => "G") (fun _ => "U") [rawT1] recT1
    (by simp +decide [cleanData, cleanRow, isValidRow, tidAlias, amountAlias, normalizeAmount,
      normalizeTransactionId, normalizeMerchant, normalizeCategory, normalizeUserId,
      normalizeTimestamp, normalizeLocation, normalizePaymentMethod, catAlias, tsAlias, pmAlias,
      stripCurrency, parseFloatQ, digitsToNat, sOr, jsOr, truthyS, JSValue.truthy, isEmptyVal,
      jsTrim, isWs, validCategories, validMethods, jsToLower, jsSanitize, toIso1, rawT1, recT1])

/-- C3 (counterexample): a row with no payment-method alias is normalized to
"credit_card", not "other". -/
theorem normalizePaymentMethod_absent_cex :
    pmAlias rawBare = none ∧ normalizePaymentMethod rawBare = "credit_card" ∧
    normalizePaymentMethod rawBare ≠ "other" :=
  ⟨by decide, by decide, by decide⟩

/-- C3 (amended): the normalized payment method is always a member of the
five-value enumeration and the row is never rejected on its account; an
*absent or falsy* payment-method field folds to "credit_card", while a
present value that does not sanitize into the enumeration folds to
"other". -/
theorem normalizePaymentMethod_closure (row : RawRow) :
    normalizePaymentMethod row ∈ validMethods ∧
    (truthyS (pmAlias row) = false → normalizePaymentMethod row = "credit_card") ∧
    (∀ s, pmAlias row = some s → s ≠ "" →
      validMethods.contains (jsSanitize s) = false → normalizePaymentMethod row = "other") ∧
    (∀ (toIso : String → Option String) (now seed useed : String) (v : Option String),
      (cleanRow toIso now seed useed (setPM row v)).isNone =
        (cleanRow toIso now seed useed row).isNone) := by
  refine ⟨?_, ?_, ?_, ?_⟩
  · unfold normalizePaymentMethod
    split_ifs with h
    · split
      next s =>
        split_ifs with hc
        · exact List.mem_of_elem_eq_true hc
        · decide
      next => decide
    · decide
  · intro h
    simp [normalizePaymentMethod, h]
  · intro s hs hne hcon
    have h2 : jsSanitize s ∉ validMethods := by simpa using hcon
    simp [normalizePaymentMethod, hs, truthyS, hne, h2]
  · intro toIso now seed useed v
    have hA : normalizeAmount (setPM row v) = normalizeAmount row := rfl
    have hT : normalizeTransactionId seed (setPM row v) = normalizeTransactionId seed row := rfl
    unfold cleanRow
    rw [hA, hT]
    cases h : normalizeAmount row with
    | none => rfl
    | some q => split_ifs <;> rfl

/-- C3 witness: an unmatched present value folds to "other" and stays inside
the enumeration. -/
theorem normalizePaymentMethod_closure_witness :
    normalizePaymentMethod rawPay = "other" ∧ normalizePaymentMethod rawPay ∈ validMethods :=
  ⟨(normalizePaymentMethod_closure rawPay).2.2.1 "CRYPTO!!" (by decide) (by decide) (by decide),
   (normalizePaymentMethod_closure rawPay).1⟩

/-- C8 (counterexample): the raw row with id " null " normalizes to a record
with id "null"; renormalizing that (already normalized) record replaces the
id with a freshly generated one, so renormalization is not idempotent on the
id field. -/
theorem renormalize_null_id_cex :
    cleanData toIso1 "NOW" (fun _ => "G") (fun _ => "U") [rawNull] = [recNull] ∧
    cleanData toIso1 "NOW" (fun _ => "G") (fun _ => "U") [toRaw recNull] =
      [{ recNull with Transaction_ID := "TXN-G" }] ∧
    ("TXN-G" : String) ≠ "null" := by
  refine ⟨?_, ?_, by decide⟩ <;>
    simp +decide [cleanData, cleanRow, isValidRow, tidAlias, amountAlias, normalizeAmount,
      normalizeTransactionId, normalizeMerchant, normalizeCategory, normalizeUserId,
      normalizeTimestamp, normalizeLocation, normalizePaymentMethod, catAlias, tsAlias, pmAlias,
      stripCurrency, parseFloatQ, digitsToNat, sOr, jsOr, truthyS, JSValue.truthy, isEmptyVal,
      jsTrim, isWs, validCategories, validMethods, jsToLower, jsSanitize, toIso1, rawNull,
      recNull, toRaw]

/-- C8 (amended): renormalizing an already-normalized record whose id is not
the literal string "null" or "undefined" reproduces the record with every
field unchanged except possibly the timestamp formatting. -/
theorem renormalize_preserves_fields (r : NormalizedRecord) (toIso : String → Option String)
    (now seed useed : String) (h : isNormalized r)
    (h1 : r.Transaction_ID ≠ "null") (h2 : r.Transaction_ID ≠ "undefined") :
    cleanData toIso now (fun _ => seed) (fun _ => useed) [toRaw r] =
      [{ r with Timestamp := normalizeTimestamp toIso now (toRaw r) }] := by
  obtain ⟨htrim, hne, hpos, hm, hcat, hu, hl, hpm⟩ := h
  have hval : isValidRow (toRaw r) = true := by
    simp [isValidRow, tidAlias, toRaw, sOr, truthyS, hne, jsOr, JSValue.truthy,
      ne_of_gt hpos, isEmptyVal]
  have hAm : normalizeAmount (toRaw r) = some r.Amount := by
    simp [normalizeAmount, amountAlias, toRaw, jsOr, JSValue.truthy, isEmptyVal,
      ne_of_gt hpos, not_le.mpr hpos]
  have htrim_ne : jsTrim r.Transaction_ID ≠ "" := by rw [htrim]; exact hne
  have hta : tidAlias (toRaw r) = some r.Transaction_ID := by
    simp [tidAlias, toRaw, sOr, truthyS, hne]
  have hTid : normalizeTransactionId seed (toRaw r) = r.Transaction_ID := by
    unfold normalizeTransactionId
    rw [hta]
    show (if r.Transaction_ID ≠ "" ∧ jsTrim r.Transaction_ID ≠ "" ∧
          r.Transaction_ID ≠ "null" ∧ r.Transaction_ID ≠ "undefined" then
            jsTrim r.Transaction_ID else "TXN-" ++ seed) = r.Transaction_ID
    rw [if_pos ⟨hne, htrim_ne, h1, h2⟩]
    exact htrim
  have hM : normalizeMerchant (toRaw r) = r.Merchant := by
    simp [normalizeMerchant, toRaw, sOr, truthyS, hm]
  have hU : normalizeUserId useed (toRaw r) = r.User_ID := by
    simp [normalizeUserId, toRaw, sOr, truthyS, hu]
  have hL : normalizeLocation (toRaw r) = r.Location := by
    simp [normalizeLocation, toRaw, sOr, truthyS, hl]
  have hC : normalizeCategory (toRaw r) = r.Category := by
    have hcat2 : r.Category = "E-commerce" ∨ r.Category = "Retail" ∨ r.Category = "Gas" ∨
        r.Category = "Food" ∨ r.Category = "ATM" ∨ r.Category = "Online" ∨
        r.Category = "Other" := by simpa [validCategories] using hcat
    rcases hcat2 with hc | hc | hc | hc | hc | hc | hc <;>
      simp +decide [normalizeCategory, catAlias, toRaw, sOr, truthyS, validCategories,
        jsToLower, hc]
  have hP : normalizePaymentMethod (toRaw r) = r.Payment_Method := by
    have hpm2 : r.Payment_Method = "credit_card" ∨ r.Payment_Method = "debit_card" ∨
        r.Payment_Method = "bank_transfer" ∨ r.Payment_Method = "digital_wallet" ∨
        r.Payment_Method = "other" := by simpa [validMethods] using hpm
    rcases hpm2 with hp | hp | hp | hp | hp <;>
      simp +decide [normalizePaymentMethod, pmAlias, toRaw, sOr, truthyS, validMethods,
        jsSanitize, jsToLower, hp]
  have hrow : cleanRow toIso now seed useed (toRaw r) =
      some { r with Timestamp := normalizeTimestamp toIso now (toRaw r) } := by
    unfold cleanRow
    rw [hAm]
    show (if normalizeTransactionId seed (toRaw r) = "" then none
          else some { Transaction_ID := normalizeTransactionId seed (toRaw r),
                      Amount := r.Amount, Merchant := normalizeMerchant (toRaw r),
                      Category := normalizeCategory (toRaw r),
                      User_ID := normalizeUserId useed (toRaw r),
                      Timestamp := normalizeTimestamp toIso now (toRaw r),
                      Location := normalizeLocation (toRaw r),
                      Payment_Method := normalizePaymentMethod (toRaw r) }) =
        some { r with Timestamp := normalizeTimestamp toIso now (toRaw r) }
    rw [hTid, if_neg hne, hM, hC, hU, hL, hP]
  simp [cleanData, hval, hrow, List.enum]

/-- C8 witness. -/
theorem renormalize_preserves_fields_witness :
    cleanData toIso1 "NOW2" (fun _ => "s") (fun _ => "u") [toRaw recT1] =
      [{ recT1 with Timestamp := normalizeTimestamp toIso1 "NOW2" (toRaw recT1) }] :=
  renormalize_preserves_fields recT1 toIso1 "NOW2" "s" "u"
    ⟨by decide, by decide, by norm_num [recT1], by decide, by decide, by decide,
      by decide, by decide⟩
    (by decide) (by decide)

/-- C2 (counterexample): a prediction with risk level HIGH but an empty
transaction id produces no alert (an omission), and the alert built for a
usable prediction carries no `status` field (modelled as `none`), not
"open". -/
theorem alertDocs_spec_cex :
    predNoId.risk_level = "HIGH" ∧ alertDocs [predNoId] = [] ∧
    alertDocs [predOk] =
      [{ Transaction_ID := "T1", risk_level := "HIGH", reason := "r", status := none }] :=
  ⟨rfl, rfl, rfl⟩

/-- C2 (amended): the generated alert documents are exactly the predictions
with risk level HIGH or a set fraud flag *and a truthy transaction id*,
mapped 1:1; no `status` field is assigned at creation (the "open" default
lives only in the backend's Mongoose schema, which this raw insert does not
go through). -/
theorem alertDocs_characterization (preds : List Pred) :
    alertDocs preds =
      (preds.filter (fun p => (p.risk_level == "HIGH" || p.fraud_flag) &&
          p.Transaction_ID != "")).map mkAlertDoc ∧
    ∀ d ∈ alertDocs preds, d.status = none := by
  have hpred : (fun a => ((fun doc => doc.Transaction_ID != "") ∘ mkAlertDoc) a &&
      (a.risk_level == "HIGH" || a.fraud_flag)) =
      (fun p : Pred => (p.risk_level == "HIGH" || p.fraud_flag) &&
        p.Transaction_ID != "") := by
    funext a
    simp [Function.comp, mkAlertDoc, Bool.and_comm]
  constructor
  · unfold alertDocs
    rw [List.filter_map, List.filter_filter, hpred]
  · intro d hd
    unfold alertDocs at hd
    rw [List.filter_map] at hd
    obtain ⟨p, hp, rfl⟩ := List.mem_map.mp hd
    rfl

/-- C2 witness. -/
theorem alertDocs_characterization_witness :
    ({ Transaction_ID := "T1", risk_level := "HIGH", reason := "r",
        status := none } : AlertDoc).status = none :=
  (alertDocs_characterization [predOk]).2 _ (by decide)

end FraudShield
